import Mathlib

/-!
Shallow embedding of the magnifier overlay repository:
  src/source/windows_utils.py
  src/source/visionEnhancementProviders/NVDAMagnifier.py

Pure data and control flow of the functions the claims mention are
translated into executable Lean definitions; OS calls (win32gui, the
magnification engine, threading primitives) appear as explicit inputs or
as values describing the effect the code requests from the OS.
Python ints and screen coordinates are modelled as Int; `int()` applied
to an int is the identity.  A Python dict used only through `.get`,
item assignment and `.pop` is modelled as a total function into Option
(an absent key and a key stored with value None are indistinguishable
to every reader in this code, which reads only via `.get`).
-/

namespace NvdaSpec

/-- locationHelper.RectLTWH: an axis-aligned rectangle given as
left, top, width, height.  Also used for the 4-tuples
(x, y, w, h) passed around in windows_utils.py. -/
structure RectLTWH where
  left : Int
  top : Int
  width : Int
  height : Int
deriving DecidableEq, Repr

/-- vision.constants.Context, restricted to the members this provider
uses (NVDAMagnifier.py lines 175-182, 388-393). -/
inductive Context where
  | FOCUS
  | NAVIGATOR
  | BROWSEMODE
  | FOCUS_NAVIGATOR
deriving DecidableEq, Repr

/-- contextToRectMap / the local contextRects dict of MagnifyWindow._paint:
Context keyed dict of optional rectangles, read only through `.get`. -/
def CMap : Type := Context → Option RectLTWH

/-- Dict item assignment `d[c] = v` (with v itself optional: the code
stores None into contextToRectMap when rect resolution fails); `.pop`
is mapSet to none. -/
def mapSet (m : CMap) (c : Context) (v : Option RectLTWH) : CMap :=
  fun x => if x = c then v else m x

/-- The empty dict `contextRects = {}` at the start of MagnifyWindow._paint. -/
def emptyMap : CMap := fun _ => none

/-- NVDAMagnifier._get_enabledContexts: the tuple comprehension filtering
_supportedContexts = (FOCUS, NAVIGATOR, BROWSEMODE) by the three boolean
settings, preserving that order. -/
def enabledContexts (magnifyFocus magnifyNavigator magnifyBrowseMode : Bool) :
    List Context :=
  (if magnifyFocus then [Context.FOCUS] else []) ++
  (if magnifyNavigator then [Context.NAVIGATOR] else []) ++
  (if magnifyBrowseMode then [Context.BROWSEMODE] else [])

/-- One iteration of the `for context in magnifier.enabledContexts` loop of
MagnifyWindow._paint (NVDAMagnifier.py lines 171-183): skip a missing or
None rectangle; when the context is NAVIGATOR and the rectangle equals the
FOCUS entry collected so far, pop FOCUS, pop NAVIGATOR (with default), and
store the rectangle under FOCUS_NAVIGATOR; otherwise store it under the
context itself. -/
def paintStep (m : CMap) (acc : CMap) (context : Context) : CMap :=
  match m context with
  | none => acc
  | some rect =>
    if context = Context.NAVIGATOR ∧ acc Context.FOCUS = some rect then
      mapSet (mapSet (mapSet acc Context.FOCUS none) Context.NAVIGATOR none)
        Context.FOCUS_NAVIGATOR (some rect)
    else
      mapSet acc context (some rect)

/-- The contextRects dict computed by the loop of MagnifyWindow._paint. -/
def paintContextRects (enabled : List Context) (m : CMap) : CMap :=
  enabled.foldl (paintStep m) emptyMap

/-- mag.set_fullscreen_transform(scale, offset): the transform the code
asks the magnification engine to apply. -/
structure FullscreenTransform where
  scale : Int
  offset : Int × Int
deriving DecidableEq, Repr

/-- windows_utils.set_fullscreen_transform call, recorded as a value. -/
def set_fullscreen_transform (scale : Int) (offset : Int × Int) :
    FullscreenTransform :=
  { scale := scale, offset := offset }

/-- windows_utils.set_pos (lines 54-55):
`mag.set_fullscreen_transform(2, [x, y])`. -/
def set_pos (x y : Int) : FullscreenTransform :=
  set_fullscreen_transform 2 (x, y)

/-- windows_utils.mag_decrease (lines 66-72): takes the current global
mag_level, returns the new mag_level together with the transform sent to
the engine.  When mag_level is at most 1 the level is left unchanged and
the transform uses level 1; otherwise the level is decremented. -/
def mag_decrease (mag_level : Int) : Int × FullscreenTransform :=
  if mag_level ≤ 1 then
    (mag_level, set_fullscreen_transform 1 (2, 2))
  else
    (mag_level - 1, set_fullscreen_transform (mag_level - 1) (2, 2))

/-- The `rect` local of NVDAMagnifier.updateContextRect after the
`if rect is None` block: the explicit argument if given, otherwise the
result of the external getContextRect call (none when that call raised
LookupError / NotImplementedError / RuntimeError / TypeError). -/
def resolveRect (rectArg getContextRectResult : Option RectLTWH) :
    Option RectLTWH :=
  match rectArg with
  | some r => some r
  | none => getContextRectResult

/-- NVDAMagnifier.updateContextRect (lines 476-496): returns the new
contextToRectMap together with the transform handed to
windows_utils.set_pos, if any.  A context outside enabledContexts returns
immediately; otherwise the resolved rect (possibly none) is written into
the map, and when it is non-null the code calls
set_pos(int(rect.top), int(rect.left)). -/
def updateContextRect (enabled : List Context) (m : CMap) (context : Context)
    (rectArg getContextRectResult : Option RectLTWH) :
    CMap × Option FullscreenTransform :=
  if context ∈ enabled then
    let rect := resolveRect rectArg getContextRectResult
    (mapSet m context rect,
      match rect with
      | some r => some (set_pos r.top r.left)
      | none => none)
  else
    (m, none)

/-- NVDAMagnifier.handleBrowseModeMove (lines 508-509):
updateContextRect(context=Context.BROWSEMODE) with obj=None. -/
def handleBrowseModeMove (enabled : List Context) (m : CMap)
    (browseModeRect : Option RectLTWH) : CMap × Option FullscreenTransform :=
  updateContextRect enabled m Context.BROWSEMODE none browseModeRect

/-- NVDAMagnifier.handleFocusChange (lines 498-503): update the FOCUS
rectangle first; then, if the object is not in the active tree
interceptor, pop BROWSEMODE from the map (default None), else refresh
BROWSEMODE via handleBrowseModeMove.  The second component collects the
transforms emitted, in order. -/
def handleFocusChange (enabled : List Context) (m : CMap)
    (focusRect : Option RectLTWH) (isObjectInActiveTreeInterceptor : Bool)
    (browseModeRect : Option RectLTWH) : CMap × List FullscreenTransform :=
  let fm := updateContextRect enabled m Context.FOCUS none focusRect
  if isObjectInActiveTreeInterceptor = false then
    (mapSet fm.1 Context.BROWSEMODE none, fm.2.toList)
  else
    let bm := handleBrowseModeMove enabled fm.1 browseModeRect
    (bm.1, fm.2.toList ++ bm.2.toList)

/-- Outcome of threading.Event.wait as used by BasicWindow:
`raisedTimeoutError` stands for the WindowInitializationTimeout failure the
spec describes; no such error exists anywhere in windows_utils.py, so no
code path of the embedding produces it. -/
inductive WaitOutcome where
  | signaled
  | timedOut
  | blockedForever
  | raisedTimeoutError
deriving DecidableEq, Repr

/-- BasicWindow.wait_window_start (lines 286-287):
`self._window_started_event.wait(timeout)`.  `eventEverSet` says whether
the worker ever sets the event; with timeout None and an event that is
never set, Event.wait never returns. -/
def wait_window_start (eventEverSet : Bool) (timeout : Option Nat) :
    WaitOutcome :=
  if eventEverSet then
    WaitOutcome.signaled
  else
    match timeout with
    | some _ => WaitOutcome.timedOut
    | none => WaitOutcome.blockedForever

/-- The blocking step of BasicWindow.run (line 331): the source calls
`self.wait_window_start()` with the default timeout, which is None. -/
def BasicWindow.run_wait (eventEverSet : Bool) : WaitOutcome :=
  wait_window_start eventEverSet none

/-- Queue and message operations performed by BasicWindow._execute
(lines 307-314) and its worker-side counterpart _on_command_get
(lines 316-320), in the order they happen during one round trip.
Commands are identified by a command id and one argument. -/
inductive QueueOp where
  | commandPut (element : Nat × Nat)
  | postCommandMessage
  | commandGet
  | resultPut (r : Nat)
  | resultGet
deriving DecidableEq, Repr

/-- BasicWindow._execute (lines 307-314): if the current thread id equals
the stored _thread_id, the command runs directly and returns; otherwise
the element is put on the command queue, _on_command_get (wrapped by
win_event) posts WM_USER to the window, the worker dequeues, runs the
command and puts the result, and the caller returns _result.get().
`runCommandFn` evaluates a command id on its argument. -/
def BasicWindow.execute (runCommandFn : Nat → Nat → Nat)
    (threadId : Option Nat) (currentThreadId : Nat) (command arg : Nat) :
    Nat × List QueueOp :=
  if threadId = some currentThreadId then
    (runCommandFn command arg, [])
  else
    (runCommandFn command arg,
      [QueueOp.commandPut (command, arg), QueueOp.postCommandMessage,
        QueueOp.commandGet, QueueOp.resultPut (runCommandFn command arg),
        QueueOp.resultGet])

/-- The mutable geometry of a MagnifierWindow
(windows_utils.py AbstractWindow.__init__ plus MagnifierWindow): the
fields read and written by current_rectangle, _on_resize, _on_move,
create_window, the fullscreen_mode setter and _draw. -/
structure MagnifierWindowState where
  position : Int × Int
  size : Int × Int
  window_started : Bool
  fullscreen_mode : Bool
  fullscreen_rectangle : RectLTWH
deriving DecidableEq, Repr

/-- AbstractWindow.__init__ (lines 170-182): position (0, 0),
size (400, 400), event unset, windowed mode,
_fullscreen_rectangle = (0, 0, 200, 200). -/
def initState : MagnifierWindowState :=
  { position := (0, 0), size := (400, 400), window_started := false,
    fullscreen_mode := false,
    fullscreen_rectangle := { left := 0, top := 0, width := 200, height := 200 } }

/-- windows_utils.get_fullscreen_size (lines 121-125):
(0, 0, SM_CXSCREEN, SM_CYSCREEN), the metrics being OS inputs. -/
def get_fullscreen_size (max_x max_y : Int) : RectLTWH :=
  { left := 0, top := 0, width := max_x, height := max_y }

/-- AbstractWindow.create_window (lines 198-212), state part: refreshes
_fullscreen_rectangle from get_fullscreen_size and sets the started
event (window styling calls are OS effects). -/
def create_window (s : MagnifierWindowState) (max_x max_y : Int) :
    MagnifierWindowState :=
  { s with fullscreen_rectangle := get_fullscreen_size max_x max_y,
           window_started := true }

/-- MagnifierWindow._on_resize (lines 401-405), state part: outside
fullscreen mode the tracked size becomes the client-rect size reported by
the OS, verbatim; the child repositioning is an OS effect. -/
def on_resize (s : MagnifierWindowState) (clientWidth clientHeight : Int) :
    MagnifierWindowState :=
  if s.fullscreen_mode then s
  else { s with size := (clientWidth, clientHeight) }

/-- MagnifierWindow._on_move (lines 407-414): no-op in fullscreen mode;
otherwise position is the window-rect origin corrected by twice the frame
metrics and the caption height. -/
def on_move (s : MagnifierWindowState) (winLeft winTop cxframe cyframe cycaption : Int) :
    MagnifierWindowState :=
  if s.fullscreen_mode then s
  else { s with position := (winLeft + 2 * cxframe, winTop + 2 * cyframe + cycaption) }

/-- BasicWindow.fullscreen_mode setter (lines 297-305), state part: stores
the flag; when alive and entering fullscreen, refreshes
_fullscreen_rectangle from get_fullscreen_size. -/
def set_fullscreen_mode (s : MagnifierWindowState) (value : Bool)
    (max_x max_y : Int) : MagnifierWindowState :=
  let s1 := { s with fullscreen_mode := value }
  if s1.window_started && value then
    { s1 with fullscreen_rectangle := get_fullscreen_size max_x max_y }
  else s1

/-- AbstractWindow.current_rectangle (lines 246-250). -/
def current_rectangle (s : MagnifierWindowState) : RectLTWH :=
  if s.fullscreen_mode then s.fullscreen_rectangle
  else { left := s.position.1, top := s.position.2,
         width := s.size.1, height := s.size.2 }

/-- MagnifierWindow._draw (lines 416-433): returns the rectangle written
into controller.source.raw, none when the early is_alive check returns.
The code hands current_rectangle to the control unmodified. -/
def draw_source (s : MagnifierWindowState) : Option RectLTWH :=
  if s.window_started then some (current_rectangle s) else none

/-- States of a MagnifierWindow reachable through creation, resize, move
and fullscreen toggling.  Client-rect sizes reported by the OS are
non-negative. -/
inductive Reachable : MagnifierWindowState → Prop where
  | init : Reachable initState
  | create (s : MagnifierWindowState) (mx my : Int) :
      Reachable s → Reachable (create_window s mx my)
  | resize (s : MagnifierWindowState) (w h : Int) :
      Reachable s → 0 ≤ w → 0 ≤ h → Reachable (on_resize s w h)
  | move (s : MagnifierWindowState) (wl wt cx cy cap : Int) :
      Reachable s → Reachable (on_move s wl wt cx cy cap)
  | fullscreen (s : MagnifierWindowState) (v : Bool) (mx my : Int) :
      Reachable s → Reachable (set_fullscreen_mode s v mx my)

/-- Outcome of NVDAMagnifier.__init__'s initialization check. -/
inductive InitOutcome where
  | ok
  | raisedRuntimeError
deriving DecidableEq, Repr

/-- NVDAMagnifier.__init__ (lines 436-439), check part:
`waitResult = self._magnifierRunningEvent.wait(0.2)`; raises RuntimeError
when waitResult is False or the magnifier thread is not alive. -/
def NVDAMagnifier.init_check (waitResult threadIsAlive : Bool) : InitOutcome :=
  if waitResult = false ∨ threadIsAlive = false then
    InitOutcome.raisedRuntimeError
  else
    InitOutcome.ok

/-- Outcome of NVDAMagnifier.terminate. -/
inductive TerminateOutcome where
  | completed
  | raisedWinError
  | blockedOnJoin
deriving DecidableEq, Repr

/-- NVDAMagnifier.terminate (lines 441-451): the guard
`self._magnifierThread and self._window and self._window.handle` decides
whether a quit message is posted; `windowHandle` is some h exactly when the
worker recorded self._window with a truthy handle.  A failed
PostThreadMessageW raises WinError; a successful post is followed by
join(), which returns only if the worker exits.  When the guard fails the
remaining cleanup (gdiPlusTerminate, map clear) runs and terminate
completes. -/
def NVDAMagnifier.terminate (threadRecorded : Bool) (windowHandle : Option Int)
    (postThreadMessageOk threadExitsOnQuit : Bool) : TerminateOutcome :=
  if threadRecorded && windowHandle.isSome then
    if postThreadMessageOk then
      if threadExitsOnQuit then TerminateOutcome.completed
      else TerminateOutcome.blockedOnJoin
    else
      TerminateOutcome.raisedWinError
  else
    TerminateOutcome.completed

/-- Modelled from the spec: mouseHandler.getTotalWidthAndHeightAndMinimumPosition
is repository code not under src/.  Spec sections 4.1 and 6 describe it as
computing the union bounding box of all connected displays and the
minimum-position offset of the multi-monitor virtual screen; an empty
display list must not crash. -/
def getTotalWidthAndHeightAndMinimumPosition (displays : List RectLTWH) :
    Int × Int × (Int × Int) :=
  match displays with
  | [] => (0, 0, (0, 0))
  | d :: rest =>
    let minX := rest.foldl (fun a r => min a r.left) d.left
    let minY := rest.foldl (fun a r => min a r.top) d.top
    let maxX := rest.foldl (fun a r => max a (r.left + r.width)) (d.left + d.width)
    let maxY := rest.foldl (fun a r => max a (r.top + r.height)) (d.top + d.height)
    (maxX - minX, maxY - minY, (minX, minY))

/-- MagnifyWindow.updateLocationForDisplays (NVDAMagnifier.py lines
97-121), computation part: left and top from the minimum position, width
the total width, height the total height minus one pixel; the window
repositioning calls are OS effects. -/
def updateLocationForDisplays (displays : List RectLTWH) : RectLTWH :=
  let r := getTotalWidthAndHeightAndMinimumPosition displays
  { left := r.2.2.1, top := r.2.2.2, width := r.1, height := r.2.1 - 1 }

/-- Concrete contextToRectMap used by the C1 witness: FOCUS and NAVIGATOR
hold the same rectangle, BROWSEMODE and FOCUS_NAVIGATOR are absent. -/
def c1WitnessMap : CMap := fun c =>
  match c with
  | Context.FOCUS => some { left := 0, top := 0, width := 5, height := 5 }
  | Context.NAVIGATOR => some { left := 0, top := 0, width := 5, height := 5 }
  | _ => none

/-! ## Theorems -/

/-- C1: in the paint pass, whenever FOCUS and NAVIGATOR are both enabled
and both map to the same non-null rectangle, the computed contextRects
holds that rectangle exactly once among the focus-related keys: under
FOCUS_NAVIGATOR, with no FOCUS entry and no NAVIGATOR entry. -/
theorem paint_merges_focus_navigator (b : Bool) (m : CMap) (r : RectLTWH)
    (hF : m Context.FOCUS = some r) (hN : m Context.NAVIGATOR = some r) :
    paintContextRects (enabledContexts true true b) m Context.FOCUS = none ∧
    paintContextRects (enabledContexts true true b) m Context.NAVIGATOR = none ∧
    paintContextRects (enabledContexts true true b) m Context.FOCUS_NAVIGATOR = some r := by
  cases b with
  | false =>
    simp [enabledContexts, paintContextRects, paintStep, hF, hN, mapSet, emptyMap]
  | true =>
    cases hB : m Context.BROWSEMODE with
    | none =>
      simp [enabledContexts, paintContextRects, paintStep, hF, hN, hB, mapSet, emptyMap]
    | some rb =>
      simp [enabledContexts, paintContextRects, paintStep, hF, hN, hB, mapSet, emptyMap]

/-- C1 witness: the merge computed on a concrete map with all three
contexts enabled. -/
theorem paint_merges_focus_navigator_witness :
    paintContextRects (enabledContexts true true true) c1WitnessMap Context.FOCUS = none ∧
    paintContextRects (enabledContexts true true true) c1WitnessMap Context.NAVIGATOR = none ∧
    paintContextRects (enabledContexts true true true) c1WitnessMap Context.FOCUS_NAVIGATOR =
      some { left := 0, top := 0, width := 5, height := 5 } :=
  paint_merges_focus_navigator true c1WitnessMap
    { left := 0, top := 0, width := 5, height := 5 } rfl rfl

/-- C2 counterexample: BasicWindow.run waits on the started event with
timeout None; for a worker that never signals, the caller blocks forever,
so run neither completes, nor times out, nor raises the
WindowInitializationTimeout the claim describes. -/
theorem run_wait_never_times_out :
    BasicWindow.run_wait false = WaitOutcome.blockedForever ∧
    ¬(BasicWindow.run_wait false = WaitOutcome.signaled ∨
      BasicWindow.run_wait false = WaitOutcome.timedOut ∨
      BasicWindow.run_wait false = WaitOutcome.raisedTimeoutError) := by
  decide

/-- C2 amended: run() blocks until window creation completes with no
bound at all: when the worker signals it returns, and when the worker
never signals the caller blocks forever; no timeout elapses and no
WindowInitializationTimeout failure exists in the code. -/
theorem run_wait_unbounded :
    BasicWindow.run_wait true = WaitOutcome.signaled ∧
    BasicWindow.run_wait false = WaitOutcome.blockedForever := by
  decide

/-- C3 counterexample: from the freshly created window, one resize whose
client rectangle is reported as zero-sized (a legal OS report, sizes are
non-negative) reaches a state whose paint cycle hands the magnification
control a source rectangle of width 0 and height 0: the positivity
invariant fails and nothing is clamped or ignored. -/
theorem sourceRect_zero_size_reachable :
    Reachable (on_resize (create_window initState 1920 1080) 0 0) ∧
    draw_source (on_resize (create_window initState 1920 1080) 0 0) =
      some { left := 0, top := 0, width := 0, height := 0 } ∧
    ¬(0 < ({ left := 0, top := 0, width := 0, height := 0 } : RectLTWH).width) := by
  refine ⟨?_, by decide, by decide⟩
  exact Reachable.resize _ 0 0
    (Reachable.create _ 1920 1080 Reachable.init) (le_refl 0) (le_refl 0)

/-- C3 amended: the paint handler hands current_rectangle (the fullscreen
rectangle, or the tracked position and size) to the magnification control
verbatim whenever the window is alive; no positivity or virtual-screen
clamping is performed, so a zero-sized client rectangle reported by a
resize yields a zero-sized source rectangle. -/
theorem draw_source_passthrough (s : MagnifierWindowState)
    (h : s.window_started = true) :
    draw_source s = some (current_rectangle s) := by
  simp [draw_source, h]

/-- C3 amended witness: the pass-through evaluated on the freshly created
window. -/
theorem draw_source_passthrough_witness :
    draw_source (create_window initState 1920 1080) =
      some (current_rectangle (create_window initState 1920 1080)) :=
  draw_source_passthrough (create_window initState 1920 1080) rfl

/-- C4 counterexample: a worker that records self._window (truthy handle)
and then dies before signaling the running event is a construction-timeout
scenario: the constructor raises RuntimeError; a subsequent terminate()
passes the guard, its PostThreadMessageW to the dead thread fails, and
terminate raises WinError instead of completing. -/
theorem terminate_raises_after_failed_init :
    NVDAMagnifier.init_check false false = InitOutcome.raisedRuntimeError ∧
    NVDAMagnifier.terminate true (some 1) false false = TerminateOutcome.raisedWinError ∧
    NVDAMagnifier.terminate true (some 1) false false ≠ TerminateOutcome.completed := by
  decide

/-- C4 amended: when the running event is not signaled within the 0.2s
wait the constructor raises RuntimeError; and terminate() on a partially
constructed instance completes without posting or joining whenever the
worker never recorded a window with a truthy handle (the guard fails);
only when a window was recorded does terminate post the quit message,
raising WinError if the post fails. -/
theorem init_timeout_terminate_safe
    (waitResult threadIsAlive threadRecorded postOk exits : Bool)
    (h : waitResult = false) :
    NVDAMagnifier.init_check waitResult threadIsAlive = InitOutcome.raisedRuntimeError ∧
    NVDAMagnifier.terminate threadRecorded none postOk exits = TerminateOutcome.completed := by
  subst h
  refine ⟨by simp [NVDAMagnifier.init_check], ?_⟩
  simp [NVDAMagnifier.terminate]

/-- C4 amended witness: the timeout construction failure and the safe
terminate evaluated at concrete inputs. -/
theorem init_timeout_terminate_safe_witness :
    NVDAMagnifier.init_check false true = InitOutcome.raisedRuntimeError ∧
    NVDAMagnifier.terminate true none false false = TerminateOutcome.completed :=
  init_timeout_terminate_safe false true true false false rfl

/-- C5: _execute run from the window's owning thread runs the command
directly and returns its result with no queue or message traffic; from
any other thread it puts the command on the command queue, posts the
command message, and blocks on the result queue for the round trip. -/
theorem execute_thread_affinity (runCommandFn : Nat → Nat → Nat)
    (threadId : Option Nat) (currentThreadId command arg : Nat) :
    (threadId = some currentThreadId →
      BasicWindow.execute runCommandFn threadId currentThreadId command arg =
        (runCommandFn command arg, [])) ∧
    (threadId ≠ some currentThreadId →
      BasicWindow.execute runCommandFn threadId currentThreadId command arg =
        (runCommandFn command arg,
          [QueueOp.commandPut (command, arg), QueueOp.postCommandMessage,
            QueueOp.commandGet, QueueOp.resultPut (runCommandFn command arg),
            QueueOp.resultGet])) := by
  constructor <;> intro h <;> simp [BasicWindow.execute, h]

/-- C5 witness: both branches evaluated at concrete thread ids and a
concrete command. -/
theorem execute_thread_affinity_witness :
    BasicWindow.execute (fun a b => a + b) (some 7) 7 3 4 = (7, []) ∧
    BasicWindow.execute (fun a b => a + b) (some 7) 8 3 4 =
      (7, [QueueOp.commandPut (3, 4), QueueOp.postCommandMessage,
        QueueOp.commandGet, QueueOp.resultPut 7, QueueOp.resultGet]) :=
  ⟨(execute_thread_affinity (fun a b => a + b) (some 7) 7 3 4).1 rfl,
   (execute_thread_affinity (fun a b => a + b) (some 7) 8 3 4).2 (by decide)⟩

/-- C6: updateContextRect on a context outside the enabled set is a
no-op: the contextToRectMap is returned untouched and no set_pos
transform is emitted. -/
theorem updateContextRect_disabled_noop (enabled : List Context) (m : CMap)
    (context : Context) (rectArg getContextRectResult : Option RectLTWH)
    (h : context ∉ enabled) :
    updateContextRect enabled m context rectArg getContextRectResult = (m, none) := by
  simp [updateContextRect, h]

/-- C6 witness: the no-op evaluated with FOCUS disabled. -/
theorem updateContextRect_disabled_noop_witness :
    updateContextRect [Context.NAVIGATOR] emptyMap Context.FOCUS none none =
      (emptyMap, none) :=
  updateContextRect_disabled_noop [Context.NAVIGATOR] emptyMap Context.FOCUS
    none none (by decide)

/-- C7: overlay bounds computed from the display list: an empty display
list yields a defined location (no crash), and a single 1920x1080 display
at the origin yields left 0, top 0, width 1920, height 1079 (the total
height minus one pixel). -/
theorem updateLocationForDisplays_values :
    updateLocationForDisplays [] = { left := 0, top := 0, width := 0, height := -1 } ∧
    updateLocationForDisplays [{ left := 0, top := 0, width := 1920, height := 1080 }] =
      { left := 0, top := 0, width := 1920, height := 1079 } := by
  decide

/-- C8: mag_decrease at level 1 keeps the stored level at 1 and sends the
engine a transform of level 1, which is positive. -/
theorem mag_decrease_floor :
    mag_decrease 1 = (1, set_fullscreen_transform 1 (2, 2)) ∧
    0 < (mag_decrease 1).1 ∧ 0 < (mag_decrease 1).2.scale := by
  decide

/-- C9: updateContextRect on an enabled context whose resolved rectangle
is non-null writes the rectangle into the map and calls
set_pos(rect.top, rect.left), so the transform offset carries the top
coordinate as its first (x) component and the left coordinate as its
second (y) component, at scale 2. -/
theorem updateContextRect_set_pos (enabled : List Context) (m : CMap)
    (context : Context) (rectArg getContextRectResult : Option RectLTWH)
    (r : RectLTWH) (hEn : context ∈ enabled)
    (hRect : resolveRect rectArg getContextRectResult = some r) :
    updateContextRect enabled m context rectArg getContextRectResult =
      (mapSet m context (some r), some (set_pos r.top r.left)) ∧
    set_pos r.top r.left = { scale := 2, offset := (r.top, r.left) } := by
  refine ⟨?_, rfl⟩
  simp [updateContextRect, hEn, hRect]

/-- C9 witness: the write and the swapped-coordinate transform evaluated
on a concrete rectangle (left 10, top 20). -/
theorem updateContextRect_set_pos_witness :
    updateContextRect [Context.FOCUS] emptyMap Context.FOCUS
        (some { left := 10, top := 20, width := 30, height := 40 }) none =
      (mapSet emptyMap Context.FOCUS
        (some { left := 10, top := 20, width := 30, height := 40 }),
       some (set_pos 20 10)) ∧
    set_pos 20 10 = { scale := 2, offset := (20, 10) } :=
  updateContextRect_set_pos [Context.FOCUS] emptyMap Context.FOCUS
    (some { left := 10, top := 20, width := 30, height := 40 }) none
    { left := 10, top := 20, width := 30, height := 40 } (by decide) rfl

/-- C10: handleFocusChange updates FOCUS first in both branches (the
final FOCUS entry is the one written by the FOCUS update); when the
object is not in the active tree interceptor BROWSEMODE is popped from
the map (absent afterwards, a no-op if it was absent); otherwise
BROWSEMODE is refreshed via handleBrowseModeMove applied after the FOCUS
update. -/
theorem handleFocusChange_branches (enabled : List Context) (m : CMap)
    (focusRect : Option RectLTWH) (inTI : Bool)
    (browseModeRect : Option RectLTWH) :
    ((handleFocusChange enabled m focusRect inTI browseModeRect).1 Context.FOCUS =
      (updateContextRect enabled m Context.FOCUS none focusRect).1 Context.FOCUS) ∧
    (inTI = false →
      (handleFocusChange enabled m focusRect inTI browseModeRect).1 Context.BROWSEMODE =
        none) ∧
    (inTI = true →
      (handleFocusChange enabled m focusRect inTI browseModeRect).1 Context.BROWSEMODE =
        (handleBrowseModeMove enabled
          (updateContextRect enabled m Context.FOCUS none focusRect).1
          browseModeRect).1 Context.BROWSEMODE) := by
  cases inTI with
  | false =>
    refine ⟨?_, ?_, ?_⟩
    · simp [handleFocusChange, mapSet]
    · intro _
      simp [handleFocusChange, mapSet]
    · intro h
      exact absurd h (by decide)
  | true =>
    refine ⟨?_, ?_, ?_⟩
    · by_cases hb : Context.BROWSEMODE ∈ enabled <;>
        simp [handleFocusChange, handleBrowseModeMove, updateContextRect, hb, mapSet]
    · intro h
      exact absurd h (by decide)
    · intro _
      rfl

/-- C10 witness: both branches evaluated on a concrete map and rectangle
(FOCUS and BROWSEMODE enabled). -/
theorem handleFocusChange_branches_witness :
    ((handleFocusChange [Context.FOCUS, Context.BROWSEMODE] emptyMap
        (some { left := 1, top := 2, width := 3, height := 4 }) false none).1
          Context.FOCUS =
      (updateContextRect [Context.FOCUS, Context.BROWSEMODE] emptyMap Context.FOCUS
        none (some { left := 1, top := 2, width := 3, height := 4 })).1 Context.FOCUS) ∧
    ((handleFocusChange [Context.FOCUS, Context.BROWSEMODE] emptyMap
        (some { left := 1, top := 2, width := 3, height := 4 }) false none).1
          Context.BROWSEMODE = none) :=
  ⟨(handleFocusChange_branches [Context.FOCUS, Context.BROWSEMODE] emptyMap
      (some { left := 1, top := 2, width := 3, height := 4 }) false none).1,
   (handleFocusChange_branches [Context.FOCUS, Context.BROWSEMODE] emptyMap
      (some { left := 1, top := 2, width := 3, height := 4 }) false none).2.1 rfl⟩

end NvdaSpec
